import Mathlib

/-!
Shallow embedding of the client-side dark-mode machinery of this repository:
the `useLocalStorage` and `useColorMode` React hooks and the dark-mode switch
`Button`, all given verbatim in the setup-guide source file.

The browser pieces the hooks touch are modelled explicitly:
`window.localStorage` is a partial map from keys to raw strings,
`document.body.classList` is a list of class-name strings, and JavaScript
exceptions are an `Except String` layer that the hooks' `try`/`catch` blocks
discharge.  JavaScript values that can flow through `useState` are modelled by
the inductive `JSValue`.
-/

namespace DKPersonal

/-- JavaScript values relevant to this system: the strings `"light"` /
`"dark"` stored by `useColorMode`, plus the other JSON atoms (numbers,
booleans, `null`) that `JSON.parse` can hand back from a tampered store.
Composite values (objects, arrays, functions) never arise on the paths the
hooks exercise and are outside the modelled fragment. -/
inductive JSValue where
  | jstr : String → JSValue
  | jnum : Int → JSValue
  | jbool : Bool → JSValue
  | jnull : JSValue
deriving DecidableEq

/-- `window.localStorage`: a per-origin map from key strings to raw stored
strings.  `none` models `getItem` returning `null` for an absent key. -/
def Store : Type := String → Option String

/-- A storage with no keys set. -/
def emptyStore : Store := fun _ => none

/-- A storage holding exactly one key/value pair. -/
def singletonStore (key val : String) : Store :=
  fun q => if q = key then some val else none

/-- Parse the body of a JSON string literal (the part after the opening
quote), returning the decoded characters and the rest of the input after the
closing quote.  The modelled escape sequences are backslash-quote,
backslash-backslash and backslash-slash; other escapes (which this system
never produces) fall outside the modelled fragment and are rejected. -/
def parseStrBody : List Char → Option (List Char × List Char)
  | [] => none
  | '"' :: rest => some ([], rest)
  | '\\' :: e :: rest =>
    if e = '"' ∨ e = '\\' ∨ e = '/' then
      (parseStrBody rest).map (fun p => (e :: p.1, p.2))
    else none
  | c :: rest => (parseStrBody rest).map (fun p => (c :: p.1, p.2))

/-- Model of `JSON.parse` on the fragment this system can encounter: the
atoms `null`, `true`, `false` and string literals.  `none` models
`JSON.parse` throwing a `SyntaxError`.  Numeric and composite JSON, which
this system never stores, are conservatively outside the modelled fragment
and map to `none`. -/
def jsonParse (s : String) : Option JSValue :=
  if s = "null" then some JSValue.jnull
  else if s = "true" then some (JSValue.jbool true)
  else if s = "false" then some (JSValue.jbool false)
  else
    match s.toList with
    | '"' :: rest =>
      match parseStrBody rest with
      | some (cs, []) => some (JSValue.jstr (String.mk cs))
      | _ => none
    | _ => none

/-- Escaping of a single character inside a JSON string literal (quote and
backslash; control-character escapes never arise for the values this system
stores). -/
def escapeChar (c : Char) : List Char :=
  if c = '"' then ['\\', '"']
  else if c = '\\' then ['\\', '\\']
  else [c]

/-- Model of `JSON.stringify` on the JSON atoms. -/
def jsonStringify : JSValue → String
  | JSValue.jstr s =>
      String.mk ('"' :: (s.toList.foldr (fun c acc => escapeChar c ++ acc) ['"']))
  | JSValue.jnum n => toString n
  | JSValue.jbool b => if b then "true" else "false"
  | JSValue.jnull => "null"

/-- The `useState` initializer of `useLocalStorage`:
`window.localStorage.getItem(key)` followed by
`item ? JSON.parse(item) : initialValue`, the whole body wrapped in
`try`/`catch` that returns `initialValue` on any error.  A `null` item
(absent key) and the empty string are both falsy, so both short-circuit to
`initialValue`; a `JSON.parse` failure is caught, logged and replaced by
`initialValue`.  The embedding is a total function: no exception reaches the
caller on any path. -/
def useLocalStorage_init (store : Store) (key : String) (initialValue : JSValue) : JSValue :=
  match store key with
  | none => initialValue
  | some item =>
    if item = "" then initialValue
    else
      match jsonParse item with
      | some v => v
      | none => initialValue

/-- `typeof storedValue` inside the persistence effect of `useLocalStorage`.
The identifier `storedValue` is declared nowhere in the hook (its state
variable is named `value`), and JavaScript evaluates `typeof` of an
undeclared identifier to the string `"undefined"` without throwing. -/
def typeof_storedValue : String := "undefined"

/-- Evaluating the bare reference `storedValue` inside the persistence
effect.  Because the identifier is undeclared, the evaluation throws a
`ReferenceError`. -/
def storedValue_eval : Except String JSValue :=
  Except.error "ReferenceError: storedValue is not defined"

/-- The `try` block of the persistence `useEffect` of `useLocalStorage`.
Its dependency array is `[key, value]`, so it re-runs whenever `value`
changes, but its body never reads `value`: it computes
`valueToStore` from the undeclared identifier `storedValue` and only then
would call `window.localStorage.setItem(key, JSON.stringify(valueToStore))`.
The `typeof storedValue === "function"` test evaluates to `false` (the
`typeof` is `"undefined"`), and the else branch's bare read of `storedValue`
throws a `ReferenceError`, so `setItem` is never reached. -/
def useLocalStorage_effect_try (store : Store) (key : String) (value : JSValue) :
    Except String Store := do
  let valueToStore ←
    if typeof_storedValue = "function" then storedValue_eval
    else storedValue_eval
  pure (fun q => if q = key then some (jsonStringify valueToStore) else store q)

/-- The persistence `useEffect` of `useLocalStorage` as a whole: the `try`
block above with its `catch`, which logs the error (`console.log(error)`)
and swallows it, leaving the durable store untouched.  The embedding is a
total function on stores: no exception propagates out of the effect. -/
def useLocalStorage_effect (store : Store) (key : String) (value : JSValue) : Store :=
  match useLocalStorage_effect_try store key value with
  | Except.ok newStore => newStore
  | Except.error _ => store

/-- The fixed preference key used by `useColorMode`. -/
def colorModeKey : String := "color-mode"

/-- The default mode passed by `useColorMode` to `useLocalStorage`. -/
def defaultMode : JSValue := JSValue.jstr "dark"

/-- `classList.add`: appends the class if it is not already present. -/
def classList_add (cs : List String) (c : String) : List String :=
  if c ∈ cs then cs else cs ++ [c]

/-- `classList.remove`: removes every occurrence of the class. -/
def classList_remove (cs : List String) (c : String) : List String :=
  cs.filter (fun x => x ≠ c)

/-- The class-sync `useEffect` of `useColorMode`:
`colorMode === "dark" ? bodyClasses.add("dark") : bodyClasses.remove("dark")`
applied to `window.document.body.classList`.  Strict equality with the
string literal `"dark"` holds exactly for the string value `"dark"`. -/
def colorMode_classSync (cs : List String) (colorMode : JSValue) : List String :=
  if colorMode = JSValue.jstr "dark" then classList_add cs "dark"
  else classList_remove cs "dark"

/-- The browser-visible state of one session of the rendered page: the
durable `localStorage`, the in-memory React state held by
`useLocalStorage` inside `useColorMode`, and `document.body`'s class list. -/
structure SessionState where
  store : Store
  value : JSValue
  bodyClasses : List String

/-- Run the two effects that react to the current `colorMode` value: the
persistence effect of `useLocalStorage` (dependencies `[key, value]`) and
the class-sync effect of `useColorMode` (dependency `[colorMode]`). -/
def runEffects (s : SessionState) : SessionState :=
  { store := useLocalStorage_effect s.store colorModeKey s.value
    value := s.value
    bodyClasses := colorMode_classSync s.bodyClasses s.value }

/-- A fresh page load: `useColorMode` mounts, `useLocalStorage("color-mode",
"dark")` initializes its state from the store, and the mount-time effects
run.  `initClasses` is whatever class list the rendered layout put on
`document.body` (the repository's layout starts it as `dark` plus a font
class). -/
def freshLoad (store : Store) (initClasses : List String) : SessionState :=
  runEffects
    { store := store
      value := useLocalStorage_init store colorModeKey defaultMode
      bodyClasses := initClasses }

/-- `setColorMode m` (the setter returned by `useColorMode`, i.e. the
`setValue` of `useLocalStorage`): the in-memory state becomes `m` and the
dependent effects re-run. -/
def setColorMode (s : SessionState) (m : JSValue) : SessionState :=
  runEffects { s with value := m }

/-- The current mode observed by consumers of `useColorMode` (the
`colorMode` element of the returned pair). -/
def getCurrentMode (s : SessionState) : JSValue := s.value

/-- The icon rendered inside the dark-mode switch `Button`: either the
inline `<svg>` (identified by its path data) or a `next/image` asset
(identified by its `src`). -/
inductive ButtonIcon where
  | inlineSvg : String → ButtonIcon
  | imageAsset : String → ButtonIcon
deriving DecidableEq

/-- The path data of the inline `<svg>` the `Button` renders when
`colorMode === "light"`: a single crescent-shaped path (the moon icon of
the design the guide is based on). -/
def moonSvgPath : String :=
  "M19.513 11.397a.701.701 0 00-.588.128 7.496 7.496 0 01-2.276 1.336 7.101 7.101 0 01-2.583.462 7.505 7.505 0 01-5.32-2.209 7.568 7.568 0 01-2.199-5.342c0-.873.154-1.72.41-2.49a6.904 6.904 0 011.227-2.21.657.657 0 00-.102-.924.701.701 0 00-.589-.128C5.32.61 3.427 1.92 2.072 3.666A10.158 10.158 0 000 9.83c0 2.8 1.125 5.342 2.967 7.19a10.025 10.025 0 007.16 2.98c2.353 0 4.527-.822 6.266-2.183a10.13 10.13 0 003.58-5.624.623.623 0 00-.46-.796z"

/-- The sun icon: the `<Image>` whose `src` is `/assets/icon-sun.svg`,
rendered by the `Button` when `colorMode` is not `"light"`. -/
def sunIcon : ButtonIcon := ButtonIcon.imageAsset "/assets/icon-sun.svg"

/-- The `onPress` handler of the dark-mode switch `Button`:
`setColorMode(colorMode === "light" ? "dark" : "light")`.  This is the
argument passed to the setter. -/
def buttonOnPressArg (colorMode : JSValue) : JSValue :=
  if colorMode = JSValue.jstr "light" then JSValue.jstr "dark"
  else JSValue.jstr "light"

/-- The text label the `Button` renders:
`colorMode === "light" ? "DARK" : "LIGHT"`. -/
def buttonLabel (colorMode : JSValue) : String :=
  if colorMode = JSValue.jstr "light" then "DARK" else "LIGHT"

/-- The icon the `Button` renders: the inline crescent `<svg>` when
`colorMode === "light"`, otherwise the `icon-sun.svg` image. -/
def buttonIcon (colorMode : JSValue) : ButtonIcon :=
  if colorMode = JSValue.jstr "light" then ButtonIcon.inlineSvg moonSvgPath
  else sunIcon

/-! ### Helper lemmas -/

/-- The persistence effect never changes the durable store: its `try` block
throws a `ReferenceError` on the undeclared `storedValue` before
`setItem` is reached, and the `catch` swallows the error. -/
theorem useLocalStorage_effect_id (st : Store) (k : String) (v : JSValue) :
    useLocalStorage_effect st k v = st := rfl

/-- Membership of the marker class after one run of the class-sync effect:
the resulting class list contains `"dark"` exactly when the mode value is
the string `"dark"`. -/
theorem mem_classSync_iff (cs : List String) (m : JSValue) :
    "dark" ∈ colorMode_classSync cs m ↔ m = JSValue.jstr "dark" := by
  unfold colorMode_classSync classList_add classList_remove
  by_cases h : m = JSValue.jstr "dark"
  · by_cases hm : "dark" ∈ cs <;> simp [h, hm]
  · simp [h, List.mem_filter]

/-- The class-sync effect is idempotent on the class list. -/
theorem classSync_idem (cs : List String) (m : JSValue) :
    colorMode_classSync (colorMode_classSync cs m) m = colorMode_classSync cs m := by
  unfold colorMode_classSync classList_add classList_remove
  by_cases h : m = JSValue.jstr "dark"
  · by_cases hm : "dark" ∈ cs <;> simp [h, hm]
  · simp [h, List.filter_filter]

/-- `JSON.parse` of the empty string fails (models the `SyntaxError`). -/
theorem jsonParse_empty : jsonParse "" = none := rfl

/-! ### Claims -/

/-- C1: the claimed round-trip fails on the code.  Starting from an empty
store, `setColorMode "light"` leaves the in-memory mode at `"light"`, but
the persistence effect — whose `try` block reads the undeclared identifier
`storedValue` and throws — never writes the store, so the key is still
absent and a fresh load comes back with the default `"dark"`, not
`"light"`. -/
theorem C1_roundtrip_fails_on_code :
    getCurrentMode (setColorMode (freshLoad emptyStore ["dark"]) (JSValue.jstr "light"))
      = JSValue.jstr "light"
    ∧ (setColorMode (freshLoad emptyStore ["dark"]) (JSValue.jstr "light")).store colorModeKey
      = none
    ∧ getCurrentMode
        (freshLoad
          (setColorMode (freshLoad emptyStore ["dark"]) (JSValue.jstr "light")).store
          ["dark"])
      = JSValue.jstr "dark" :=
  ⟨rfl, rfl, rfl⟩

/-- C2: after any `setColorMode m` call, and likewise after the initial
load, the body's class list contains the marker class `"dark"` exactly when
the (new, respectively loaded) mode value is the string `"dark"`. -/
theorem C2_marker_class_invariant :
    (∀ (s : SessionState) (m : JSValue),
      ("dark" ∈ (setColorMode s m).bodyClasses ↔ m = JSValue.jstr "dark"))
    ∧ (∀ (store : Store) (cs : List String),
      ("dark" ∈ (freshLoad store cs).bodyClasses ↔
        getCurrentMode (freshLoad store cs) = JSValue.jstr "dark")) :=
  ⟨fun s m => mem_classSync_iff s.bodyClasses m,
   fun store cs => mem_classSync_iff cs (useLocalStorage_init store colorModeKey defaultMode)⟩

/-- C3: the `useState` initializer of `useLocalStorage` is total and equals
the stored value when present and parseable, and the caller-supplied
`initialValue` when the key is absent or deserialization fails; in
particular a pre-seeded unparsable value under `"color-mode"` yields the
default `"dark"`. -/
theorem C3_read_fallback :
    (∀ (store : Store) (key : String) (init : JSValue),
      useLocalStorage_init store key init =
        (match store key with
         | none => init
         | some item => (jsonParse item).getD init))
    ∧ useLocalStorage_init (singletonStore colorModeKey "not-valid-json")
        colorModeKey defaultMode = defaultMode := by
  constructor
  · intro store key init
    unfold useLocalStorage_init
    cases h : store key with
    | none => rfl
    | some item =>
      by_cases he : item = ""
      · subst he; rfl
      · cases hj : jsonParse item <;> simp [he, hj]
  · rfl

/-- C4: the `try` block of the persistence effect fails on every run (it
throws a `ReferenceError` on the undeclared `storedValue` before any
storage write), the failure is swallowed leaving the store untouched, and
`setColorMode m` completes — the embedding is a total function, no
exception propagates — with the in-memory mode equal to `m`. -/
theorem C4_write_failure_swallowed (s : SessionState) (m : JSValue) :
    useLocalStorage_effect_try s.store colorModeKey m
      = Except.error "ReferenceError: storedValue is not defined"
    ∧ (setColorMode s m).store = s.store
    ∧ getCurrentMode (setColorMode s m) = m :=
  ⟨rfl, rfl, rfl⟩

/-- C5: when nothing is stored under the preference key `"color-mode"`, the
mode observed after a fresh load is the default `"dark"`. -/
theorem C5_default_dark (store : Store) (cs : List String)
    (h : store colorModeKey = none) :
    getCurrentMode (freshLoad store cs) = JSValue.jstr "dark" := by
  show useLocalStorage_init store colorModeKey defaultMode = JSValue.jstr "dark"
  unfold useLocalStorage_init
  rw [h]
  rfl

/-- Witness for C5 at the empty store. -/
theorem C5_default_dark_witness :
    getCurrentMode (freshLoad emptyStore ["dark"]) = JSValue.jstr "dark" :=
  C5_default_dark emptyStore ["dark"] rfl

/-- C6: for each valid mode string `v` (`"light"` or `"dark"`) stored
JSON-encoded under `"color-mode"`, a fresh load observes mode `v`. -/
theorem C6_stored_value_restore (v : String)
    (h : v = "light" ∨ v = "dark") (cs : List String) :
    getCurrentMode
      (freshLoad (singletonStore colorModeKey (jsonStringify (JSValue.jstr v))) cs)
      = JSValue.jstr v := by
  rcases h with h | h <;> subst h <;> rfl

/-- Witness for C6 at `v = "light"`. -/
theorem C6_stored_value_restore_witness :
    getCurrentMode
      (freshLoad (singletonStore colorModeKey (jsonStringify (JSValue.jstr "light"))) ["dark"])
      = JSValue.jstr "light" :=
  C6_stored_value_restore "light" (Or.inl rfl) ["dark"]

/-- C7: `setColorMode m` is idempotent — a second identical call changes
neither the durably stored value under the preference key nor the body's
class list (hence in particular not the presence of the marker class). -/
theorem C7_setMode_idempotent (s : SessionState) (m : JSValue) :
    (setColorMode (setColorMode s m) m).store colorModeKey
      = (setColorMode s m).store colorModeKey
    ∧ (setColorMode (setColorMode s m) m).bodyClasses
      = (setColorMode s m).bodyClasses :=
  ⟨rfl, classSync_idem s.bodyClasses m⟩

/-- C8 counterexample: at current mode `"light"` the button's label is
`"DARK"` but its icon is the inline crescent `<svg>`, not the sun icon —
the sun image `/assets/icon-sun.svg` is rendered when the mode is
`"dark"`, the opposite pairing from the one the claim states. -/
theorem C8_icon_counterexample :
    buttonLabel (JSValue.jstr "light") = "DARK"
    ∧ buttonIcon (JSValue.jstr "light") ≠ sunIcon
    ∧ buttonIcon (JSValue.jstr "dark") = sunIcon := by
  refine ⟨rfl, ?_, rfl⟩
  decide

/-- C8 (amended): for a current mode in `{"light","dark"}`, activation
passes the setter the complement mode, and the button renders label
`"DARK"` with the inline crescent (moon) `<svg>` exactly when the mode is
`"light"`, and label `"LIGHT"` with the sun image exactly when it is
`"dark"`. -/
theorem C8_ui_contract (m : JSValue)
    (h : m = JSValue.jstr "light" ∨ m = JSValue.jstr "dark") :
    buttonOnPressArg m
      = (if m = JSValue.jstr "light" then JSValue.jstr "dark" else JSValue.jstr "light")
    ∧ ((buttonLabel m = "DARK" ∧ buttonIcon m = ButtonIcon.inlineSvg moonSvgPath)
        ↔ m = JSValue.jstr "light")
    ∧ ((buttonLabel m = "LIGHT" ∧ buttonIcon m = sunIcon)
        ↔ m = JSValue.jstr "dark") := by
  rcases h with h | h <;> subst h <;> refine ⟨rfl, ?_, ?_⟩ <;> simp [buttonLabel, buttonIcon]

/-- Witness for the amended C8 at mode `"light"`. -/
theorem C8_ui_contract_witness :
    buttonOnPressArg (JSValue.jstr "light")
      = (if JSValue.jstr "light" = JSValue.jstr "light" then JSValue.jstr "dark"
         else JSValue.jstr "light")
    ∧ ((buttonLabel (JSValue.jstr "light") = "DARK"
        ∧ buttonIcon (JSValue.jstr "light") = ButtonIcon.inlineSvg moonSvgPath)
        ↔ JSValue.jstr "light" = JSValue.jstr "light")
    ∧ ((buttonLabel (JSValue.jstr "light") = "LIGHT"
        ∧ buttonIcon (JSValue.jstr "light") = sunIcon)
        ↔ JSValue.jstr "light" = JSValue.jstr "dark") :=
  C8_ui_contract (JSValue.jstr "light") (Or.inl rfl)

/-- C9: the claimed create-on-first-read fails on the code.  After a fresh
load from an empty store the observed mode is the default `"dark"`, yet
the persistence effect (whose `try` block throws on the undeclared
`storedValue`) has written nothing: the store still has no entry under the
preference key. -/
theorem C9_record_not_created_on_first_read :
    getCurrentMode (freshLoad emptyStore ["dark"]) = JSValue.jstr "dark"
    ∧ (freshLoad emptyStore ["dark"]).store colorModeKey = none :=
  ⟨rfl, rfl⟩

/-- C10: one run of the class-sync effect leaves the body's class list
containing the marker class `"dark"` exactly when the mode value is the
string `"dark"` — every other value, strings outside the two modes and
non-string JSON atoms alike, results in the marker class being absent. -/
theorem C10_total_classSync (cs : List String) (m : JSValue) :
    "dark" ∈ colorMode_classSync cs m ↔ m = JSValue.jstr "dark" :=
  mem_classSync_iff cs m

end DKPersonal
